import Mathlib

/-
Verification of the semantic-cache-gateway core against its specification.

The Go source is shallowly embedded: pure helpers become Lean functions,
the Redis store becomes an explicit association-list state, and the three
fallible collaborators of the request pipeline (cache store, embedding
service, upstream proxy) become oracle inputs of the pipeline function.
Similarity scores and embedding components are modelled as rationals; the
claims under study only compare scores, they never depend on rounding.
-/

namespace SemanticCache

/-! Section: String helpers mirroring the Go standard library -/

/-- Model of Go strings.HasPrefix(s, pre): pre is a prefix of s. -/
def hasPrefixStr (s pre : String) : Bool :=
  pre.data.isPrefixOf s.data

/-- Model of Go strings.TrimPrefix(s, pre): drop pre from the front of s
when present, otherwise return s unchanged. -/
def trimPrefixStr (s pre : String) : String :=
  if hasPrefixStr s pre then String.mk (s.data.drop pre.data.length) else s

/-! Section: internal/models/request.go -/

/-- Model of models.Message. -/
structure Message where
  role : String
  content : String
deriving DecidableEq, Repr

/-- Model of models.ChatCompletionRequest. -/
structure ChatCompletionRequest where
  model : String
  messages : List Message
  stream : Bool
deriving DecidableEq, Repr

/-- Model of models.ExtractQueryText: the content of the user messages, in
order, joined by a single space. -/
def ExtractQueryText (req : ChatCompletionRequest) : String :=
  String.intercalate " "
    ((req.messages.filter (fun m => m.role == "user")).map Message.content)

/-! Section: internal/cache/cache.go: data model and key derivation -/

/-- Model of cache.CacheEntry. LLMResponse (json.RawMessage) is kept as an
opaque string; Embedding components are rationals standing for float32. -/
structure CacheEntry where
  ID : String
  QueryHash : String
  QueryText : String
  Embedding : List Rat
  LLMResponse : String
  CreatedAt : Int
deriving DecidableEq, Repr

/-- Model of cache.CacheKeyFromHash: "cache:" followed by the hash with any
"sha256:" prefix removed. -/
def CacheKeyFromHash (queryHash : String) : String :=
  "cache:" ++ trimPrefixStr queryHash "sha256:"

/-- Model of cache.validateCacheEntry: returns the first error message, or
none when the entry is acceptable.  Note that ID and CreatedAt are not
inspected here. -/
def validateCacheEntry (entry : CacheEntry) : Option String :=
  if entry.QueryHash = "" then some "query_hash is required"
  else if entry.QueryText = "" then some "user_query is required"
  else if entry.Embedding.length = 0 then some "embedding is required"
  else if entry.LLMResponse = "" then some "llm_response is required"
  else none

/-! Section: internal/cache/redis_client.go: a healthy store

For the round-trip and insertion claims the store is modelled in its
healthy state as an association list from keys to entries; JSON.SET on
path $ overwrites the whole document and JSON.GET on path $ returns the
document wrapped in a one-element array, as the Go client observes. -/

/-- The key/value content of the healthy store. -/
abbrev RedisState := List (String × CacheEntry)

/-- Model of RedisClient.Exists on a healthy store. -/
def redisExists (st : RedisState) (key : String) : Bool :=
  (st.lookup key).isSome

/-- Model of RedisClient.JSONGet with path $ on a healthy store: the stored
document arrives wrapped in a one-element JSON array. -/
def redisJSONGet (st : RedisState) (key : String) : Option (List CacheEntry) :=
  (st.lookup key).map (fun e => [e])

/-- Model of RedisClient.JSONSet with path $ on a healthy store: atomic
overwrite of the document at the key. -/
def redisJSONSet (st : RedisState) (key : String) (e : CacheEntry) : RedisState :=
  (key, e) :: st

/-- Model of CacheServiceImpl.CheckExactMatch on a healthy store: derive the
key, test existence, fetch the document array, return its first element. -/
def CheckExactMatch (st : RedisState) (queryHash : String) : Option CacheEntry :=
  let key := CacheKeyFromHash queryHash
  if redisExists st key then
    match redisJSONGet st key with
    | none => none
    | some entries => entries.head?
  else none

/-- Model of CacheServiceImpl.store on a healthy store, with the clock value
passed in for time.Now().Unix().  Validation runs first; then ID is derived
from QueryHash only when empty, CreatedAt is stamped only when zero, and the
mutated entry is written at its ID.  Returns the new state and the entry as
persisted, or none when validation rejects the entry. -/
def store (st : RedisState) (now : Int) (entry : CacheEntry) :
    Option (RedisState × CacheEntry) :=
  match validateCacheEntry entry with
  | some _ => none
  | none =>
    let e1 := if entry.ID = "" then
        { entry with ID := CacheKeyFromHash entry.QueryHash } else entry
    let e2 := if e1.CreatedAt = 0 then { e1 with CreatedAt := now } else e1
    some (redisJSONSet st e2.ID e2, e2)

/-- Transcribed from the spec, section 3: the invariants every persisted
entry is claimed to satisfy.  This definition follows the wording of the
spec and is compared against what the code actually persists. -/
def specEntryInvariant (e : CacheEntry) : Prop :=
  e.QueryHash ≠ "" ∧ e.QueryText ≠ "" ∧ e.Embedding ≠ [] ∧
    e.LLMResponse ≠ "" ∧ e.ID = CacheKeyFromHash e.QueryHash ∧ 0 < e.CreatedAt

instance (e : CacheEntry) : Decidable (specEntryInvariant e) := by
  unfold specEntryInvariant; infer_instance

/-! Section: internal/cache/cache.go: SearchSimilar

The reply of FT.SEARCH is an oracle input: either a transport failure or an
ordered result list.  Each result carries the similarity score already
converted by the client (1 - cosine distance) and the document field, which
can be absent, undecodable, or a well-formed entry. -/

/-- The document part of one FT.SEARCH result as seen by SearchSimilar. -/
inductive SearchDoc where
  | missing : SearchDoc
  | malformed : SearchDoc
  | entry : CacheEntry → SearchDoc
deriving DecidableEq, Repr

/-- Model of cache.SearchResult. -/
structure SearchResult where
  Key : String
  Score : Rat
  Document : SearchDoc
deriving DecidableEq, Repr

/-- Model of CacheServiceImpl.SearchSimilar as a function of the store reply.
Empty embeddings are rejected up front; a failed search is an error; an
empty result list is a miss reported as (none, 0); otherwise the top result
is a hit exactly when its similarity strictly exceeds the threshold and its
document decodes. -/
def SearchSimilar (ftReply : Except String (List SearchResult))
    (embedding : List Rat) (threshold : Rat) :
    Except String (Option CacheEntry × Rat) :=
  if embedding.length = 0 then Except.error "embedding cannot be empty"
  else
    match ftReply with
    | Except.error e => Except.error ("vector search failed: " ++ e)
    | Except.ok [] => Except.ok (none, 0)
    | Except.ok (bestMatch :: _) =>
      let similarity := bestMatch.Score
      if similarity ≤ threshold then Except.ok (none, similarity)
      else
        match bestMatch.Document with
        | SearchDoc.missing => Except.ok (none, similarity)
        | SearchDoc.malformed => Except.error "failed to unmarshal cache entry"
        | SearchDoc.entry e => Except.ok (some e, similarity)

/-! Section: The upstream proxy: buildUpstreamURL

The repository carries two variants of the proxy source.  Both only assign
the path component of the outbound URL; the functions below compute that
path from the configured base path and the inbound request path. -/

/-- Model of Proxy.buildUpstreamURL, first variant (the one that tests
whether the request path already carries the base path). -/
def buildUpstreamURL (basePath path : String) : String :=
  if basePath = "" ∨ basePath = "/" then path
  else if hasPrefixStr path basePath then path
  else basePath ++ path

/-- Model of Proxy.buildUpstreamURL, second variant (the one that always
appends the request path to a non-trivial base path). -/
def buildUpstreamURLSecondVariant (basePath path : String) : String :=
  if basePath ≠ "" ∧ basePath ≠ "/" then basePath ++ path
  else path

/-! Section: Configuration: config.Config.Validate and handler.New -/

/-- Model of config.Config (the environment configuration); the two API
keys are irrelevant to the claims and omitted. -/
structure Config where
  UpstreamURL : String
  RedisURL : String
  SimilarityThreshold : Rat
  Port : Int
deriving DecidableEq, Repr

/-- Model of config.Config.Validate. -/
def Config.Validate (c : Config) : Option String :=
  if c.UpstreamURL = "" then some "UPSTREAM_URL is required"
  else if c.RedisURL = "" then some "REDIS_URL is required"
  else if c.SimilarityThreshold < 0 ∨ 1 < c.SimilarityThreshold then
    some "SIMILARITY_THRESHOLD must be between 0.0 and 1.0"
  else if c.Port < 1 ∨ 65535 < c.Port then
    some "PORT must be between 1 and 65535"
  else none

/-- Model of handler.Config. -/
structure HandlerConfig where
  SimilarityThreshold : Rat
deriving DecidableEq, Repr

/-- Model of the threshold computation in handler.New: start from 0.95 and
take the configured value only when the config is present and strictly
positive. -/
def handlerNewThreshold (cfg : Option HandlerConfig) : Rat :=
  match cfg with
  | some c => if 0 < c.SimilarityThreshold then c.SimilarityThreshold else 0.95
  | none => 0.95

/-! Section: internal/handler/handler.go: the request pipeline

ServeHTTP is modelled as a pure function of the request data and of the
outcomes of its four collaborator calls, each supplied as an oracle input:
the exact-match lookup, the embedding call, the vector search, and the
upstream exchange.  The outcome records the HTTP response, which terminal
path was taken, what was handed to StoreAsync, and which collaborators were
consulted. -/

/-- The headers of an in-construction response, in insertion order. -/
abbrev Headers := List (String × String)

/-- Model of Go http.Header.Set: drop every existing value for the key and
append the new one. -/
def headerSet (h : Headers) (key value : String) : Headers :=
  h.filter (fun p => !(p.1 == key)) ++ [(key, value)]

/-- Model of Go http.Header.Add: append a value for the key. -/
def headerAdd (h : Headers) (key value : String) : Headers :=
  h ++ [(key, value)]

/-- All values carried for a key, in order. -/
def headerValues (h : Headers) (key : String) : List String :=
  (h.filter (fun p => p.1 == key)).map Prod.snd

/-- Model of the header-copy loop in forwardToUpstream: Add every upstream
header pair into an empty header map. -/
def copyRespHeaders (src : Headers) : Headers :=
  src.foldl (fun acc p => headerAdd acc p.1 p.2) []

/-- The bytes written as a response body: either raw bytes passed through,
or the JSON encoding of the OpenAI-shaped error struct of writeError. -/
inductive RespBody where
  | raw : String → RespBody
  | errorJSON : String → String → RespBody
deriving DecidableEq, Repr

/-- The response as written to the client. -/
structure HTTPResponse where
  status : Nat
  headers : Headers
  body : RespBody
deriving DecidableEq, Repr

/-- Model of the upstream response after a successful exchange and body
read. -/
structure UpstreamResponse where
  StatusCode : Nat
  Header : Headers
  Body : String
deriving DecidableEq, Repr

/-- Outcome of the upstream exchange: Forward failed, reading the body
failed, or a response with fully read body. -/
inductive UpstreamResult where
  | transportError : UpstreamResult
  | bodyReadError : UpstreamResult
  | ok : UpstreamResponse → UpstreamResult
deriving DecidableEq, Repr

/-- Which terminal path ServeHTTP took, matching the status field of its
terminal request log: cache_hit, cache_miss, or error. -/
inductive Terminal where
  | hit : Terminal
  | missForwarded : Terminal
  | gatewayError : Terminal
deriving DecidableEq, Repr

/-- Everything observable about one run of ServeHTTP. -/
structure PipelineOutcome where
  response : HTTPResponse
  terminal : Terminal
  stored : Option CacheEntry
  cacheChecked : Bool
  embedCalled : Bool
  searchCalled : Bool
  upstreamCalled : Bool
deriving DecidableEq, Repr

/-- The request data and the collaborator oracles for one run of ServeHTTP.
bodyBytes is the buffered body recovered from the request context (none
when the middleware did not buffer one); parsed is the result of
json.Unmarshal of those bytes into a ChatCompletionRequest (none on a
parse error). -/
structure PipelineInput where
  bodyBytes : Option String
  parsed : Option ChatCompletionRequest
  exactMatch : Except Unit (Option CacheEntry)
  embedResult : Except Unit (List Rat)
  searchResult : Except Unit (Option CacheEntry × Rat)
  upstream : UpstreamResult

/-- Model of CacheHandler.writeError: Content-Type, status code, and the
OpenAI-shaped error body.  No cache-status header is written here. -/
def writeError (statusCode : Nat) (message errType : String) : HTTPResponse :=
  { status := statusCode
    headers := headerSet [] "Content-Type" "application/json"
    body := RespBody.errorJSON message errType }

/-- Model of CacheHandler.serveCachedResponse: 200 with the stored
llm_response verbatim, Content-Type, X-Cache-Status HIT and the request
id. -/
def serveCachedResponse (requestID : String) (entry : CacheEntry) : HTTPResponse :=
  { status := 200
    headers :=
      headerSet (headerSet (headerSet [] "Content-Type" "application/json")
        "X-Cache-Status" "HIT") "X-Request-ID" requestID
    body := RespBody.raw entry.LLMResponse }

/-- Outcome of the three 400 rejections at the top of ServeHTTP. -/
def rejectOutcome (message : String) : PipelineOutcome :=
  { response := writeError 400 message "invalid_request_error"
    terminal := Terminal.gatewayError
    stored := none
    cacheChecked := false
    embedCalled := false
    searchCalled := false
    upstreamCalled := false }

/-- Outcome of serveCachedResponse as seen from ServeHTTP; hadEmbedding is
false on the exact-match hit and true on the semantic hit. -/
def hitOutcome (requestID : String) (entry : CacheEntry) (hadEmbedding : Bool) :
    PipelineOutcome :=
  { response := serveCachedResponse requestID entry
    terminal := Terminal.hit
    stored := none
    cacheChecked := true
    embedCalled := hadEmbedding
    searchCalled := hadEmbedding
    upstreamCalled := false }

/-- Model of CacheHandler.forwardToUpstream.  On a failed exchange or body
read, a 502 error response; otherwise the upstream headers are copied,
X-Cache-Status is overridden to MISS, the request id is set, the status and
body are mirrored, and an entry is handed to StoreAsync exactly when an
embedding is at hand and the status is exactly 200. -/
def forwardToUpstream (requestID : String) (now : Int)
    (queryHash queryText : String) (embeddingVec : Option (List Rat))
    (upstream : UpstreamResult) (searchWasCalled : Bool) : PipelineOutcome :=
  match upstream with
  | UpstreamResult.transportError =>
    { response := writeError 502 "Upstream request failed" "upstream_error"
      terminal := Terminal.gatewayError
      stored := none
      cacheChecked := true
      embedCalled := true
      searchCalled := searchWasCalled
      upstreamCalled := true }
  | UpstreamResult.bodyReadError =>
    { response := writeError 502 "Failed to read upstream response" "upstream_error"
      terminal := Terminal.gatewayError
      stored := none
      cacheChecked := true
      embedCalled := true
      searchCalled := searchWasCalled
      upstreamCalled := true }
  | UpstreamResult.ok resp =>
    { response :=
      { status := resp.StatusCode
        headers :=
          headerSet (headerSet (copyRespHeaders resp.Header)
            "X-Cache-Status" "MISS") "X-Request-ID" requestID
        body := RespBody.raw resp.Body }
      terminal := Terminal.missForwarded
      stored :=
        match embeddingVec with
        | some vec =>
          if resp.StatusCode = 200 then
            some { ID := ""
                   QueryHash := queryHash
                   QueryText := queryText
                   Embedding := vec
                   LLMResponse := resp.Body
                   CreatedAt := now }
          else none
        | none => none
      cacheChecked := true
      embedCalled := true
      searchCalled := searchWasCalled
      upstreamCalled := true }

/-- The part of ServeHTTP after the exact-match step has not produced a
hit: generate the embedding, run the vector search, fall through to the
upstream on any collaborator failure. -/
def afterExactStage (requestID : String) (now : Int)
    (queryHash queryText : String) (embedResult : Except Unit (List Rat))
    (searchResult : Except Unit (Option CacheEntry × Rat))
    (upstream : UpstreamResult) : PipelineOutcome :=
  match embedResult with
  | Except.error _ =>
    forwardToUpstream requestID now queryHash queryText none upstream false
  | Except.ok embeddingVec =>
    match searchResult with
    | Except.error _ =>
      forwardToUpstream requestID now queryHash queryText (some embeddingVec)
        upstream true
    | Except.ok (some similarEntry, _) => hitOutcome requestID similarEntry true
    | Except.ok (none, _) =>
      forwardToUpstream requestID now queryHash queryText (some embeddingVec)
        upstream true

/-- Model of CacheHandler.ServeHTTP.  hashFn stands for
models.ComputeQueryHash (the SHA-256 fingerprint; its value is threaded,
never inspected), requestID for the generated request id and now for
time.Now().Unix() at the write-behind enqueue. -/
def serveHTTP (hashFn : String → String) (requestID : String) (now : Int)
    (inp : PipelineInput) : PipelineOutcome :=
  match inp.bodyBytes with
  | none => rejectOutcome "Request body not available"
  | some _ =>
    match inp.parsed with
    | none => rejectOutcome "Invalid request format"
    | some chatReq =>
      if ExtractQueryText chatReq = "" then
        rejectOutcome "No user messages found in request"
      else
        let queryText := ExtractQueryText chatReq
        let queryHash := hashFn queryText
        match inp.exactMatch with
        | Except.ok (some entry) => hitOutcome requestID entry false
        | Except.ok none =>
          afterExactStage requestID now queryHash queryText inp.embedResult
            inp.searchResult inp.upstream
        | Except.error _ =>
          afterExactStage requestID now queryHash queryText inp.embedResult
            inp.searchResult inp.upstream

/-! Section: concrete instances used by witnesses and counterexamples -/

/-- A stand-in for models.ComputeQueryHash at concrete inputs; the pipeline
threads the fingerprint without inspecting it. -/
def hashStub (q : String) : String := "sha256:" ++ q

/-- A request with a single user message. -/
def reqUser : ChatCompletionRequest :=
  { model := "m", messages := [{ role := "user", content := "hi" }], stream := false }

/-- A well-formed entry as handed to StoreAsync: ID and CreatedAt unset. -/
def entryGood : CacheEntry :=
  { ID := "", QueryHash := "sha256:aa", QueryText := "q", Embedding := [1],
    LLMResponse := "resp", CreatedAt := 0 }

/-- entryGood as persisted by store with clock 10. -/
def entryGoodStored : CacheEntry :=
  { ID := "cache:aa", QueryHash := "sha256:aa", QueryText := "q", Embedding := [1],
    LLMResponse := "resp", CreatedAt := 10 }

/-- An entry that passes validation but carries a pre-set ID that differs
from the key derived from its hash. -/
def entryMismatchedID : CacheEntry :=
  { ID := "cache:other", QueryHash := "sha256:aa", QueryText := "q", Embedding := [1],
    LLMResponse := "resp", CreatedAt := 5 }

/-- An entry that passes validation but carries a pre-set negative
timestamp. -/
def entryNegativeTime : CacheEntry :=
  { ID := "", QueryHash := "sha256:aa", QueryText := "q", Embedding := [1],
    LLMResponse := "resp", CreatedAt := -1 }

/-- entryNegativeTime as persisted by store with clock 10. -/
def entryNegativeStored : CacheEntry :=
  { ID := "cache:aa", QueryHash := "sha256:aa", QueryText := "q", Embedding := [1],
    LLMResponse := "resp", CreatedAt := -1 }

/-- A top search result whose document decodes to entryGood. -/
def bestW : SearchResult :=
  { Key := "cache:aa", Score := 1, Document := SearchDoc.entry entryGood }

/-- An upstream response with status 201. -/
def resp201 : UpstreamResponse := { StatusCode := 201, Header := [], Body := "resp-body" }

/-- An upstream response with status 200. -/
def resp200 : UpstreamResponse :=
  { StatusCode := 200, Header := [("X-Test", "v")], Body := "up-body" }

/-- Pipeline input: full miss, upstream answers 201. -/
def inp201 : PipelineInput :=
  { bodyBytes := some "body", parsed := some reqUser,
    exactMatch := Except.ok none, embedResult := Except.ok [1],
    searchResult := Except.ok (none, 0), upstream := UpstreamResult.ok resp201 }

/-- Pipeline input: full miss, upstream answers 200. -/
def inpMiss200 : PipelineInput :=
  { bodyBytes := some "body", parsed := some reqUser,
    exactMatch := Except.ok none, embedResult := Except.ok [1],
    searchResult := Except.ok (none, 0), upstream := UpstreamResult.ok resp200 }

/-- Pipeline input: exact lookup and vector search both fail, upstream
answers 200. -/
def inpDegraded : PipelineInput :=
  { bodyBytes := some "body", parsed := some reqUser,
    exactMatch := Except.error (), embedResult := Except.ok [1],
    searchResult := Except.error (), upstream := UpstreamResult.ok resp200 }

/-- Pipeline input: no buffered body in the request context. -/
def inpNoBody : PipelineInput :=
  { bodyBytes := none, parsed := none, exactMatch := Except.ok none,
    embedResult := Except.error (), searchResult := Except.error (),
    upstream := UpstreamResult.transportError }

/-- Pipeline input: empty buffered body, which json.Unmarshal rejects. -/
def inpEmptyBody : PipelineInput :=
  { bodyBytes := some "", parsed := none, exactMatch := Except.ok none,
    embedResult := Except.error (), searchResult := Except.error (),
    upstream := UpstreamResult.transportError }

/-- A config that passes Validate with the threshold at exactly 0. -/
def cfgZeroThreshold : Config :=
  { UpstreamURL := "https://api.openai.com/v1", RedisURL := "redis://localhost:6379",
    SimilarityThreshold := 0, Port := 8080 }

/-! Section: helper lemmas -/

theorem headerValues_append (h1 h2 : Headers) (key : String) :
    headerValues (h1 ++ h2) key = headerValues h1 key ++ headerValues h2 key := by
  simp [headerValues, List.filter_append]

theorem headerValues_cons_of_match (p : String × String) (t : Headers) (key : String)
    (h : (p.1 == key) = true) :
    headerValues (p :: t) key = p.2 :: headerValues t key := by
  simp [headerValues, List.filter_cons, h]

theorem headerValues_cons_of_miss (p : String × String) (t : Headers) (key : String)
    (h : (p.1 == key) = false) :
    headerValues (p :: t) key = headerValues t key := by
  simp [headerValues, List.filter_cons, h]

theorem filterOut_cons_of_match (p : String × String) (t : Headers) (k : String)
    (h : (p.1 == k) = true) :
    (p :: t).filter (fun q => !(q.1 == k)) = t.filter (fun q => !(q.1 == k)) := by
  simp [List.filter_cons, h]

theorem filterOut_cons_of_miss (p : String × String) (t : Headers) (k : String)
    (h : (p.1 == k) = false) :
    (p :: t).filter (fun q => !(q.1 == k)) = p :: t.filter (fun q => !(q.1 == k)) := by
  simp [List.filter_cons, h]

theorem headerValues_filterOut (h : Headers) (key : String) :
    headerValues (h.filter (fun p => !(p.1 == key))) key = [] := by
  induction h with
  | nil => rfl
  | cons p t ih =>
    by_cases hp : (p.1 == key) = true
    · rw [filterOut_cons_of_match p t key hp]
      exact ih
    · have hp2 : (p.1 == key) = false := by simpa using hp
      rw [filterOut_cons_of_miss p t key hp2, headerValues_cons_of_miss _ _ _ hp2]
      exact ih

theorem headerValues_headerSet_self (h : Headers) (key value : String) :
    headerValues (headerSet h key value) key = [value] := by
  unfold headerSet
  rw [headerValues_append, headerValues_filterOut]
  simp [headerValues]

theorem headerValues_headerSet_other (h : Headers) (k key value : String)
    (hne : (k == key) = false) :
    headerValues (headerSet h k value) key = headerValues h key := by
  unfold headerSet
  rw [headerValues_append]
  have h2 : headerValues [(k, value)] key = [] := by
    rw [headerValues_cons_of_miss _ _ _ hne]
    rfl
  rw [h2, List.append_nil]
  induction h with
  | nil => rfl
  | cons p t ih =>
    by_cases hpk : (p.1 == k) = true
    · have hp : (p.1 == key) = false := by
        have h1 : p.1 = k := by simpa using hpk
        simpa [h1] using hne
      rw [filterOut_cons_of_match p t k hpk, headerValues_cons_of_miss p t key hp]
      exact ih
    · have hpk2 : (p.1 == k) = false := by simpa using hpk
      rw [filterOut_cons_of_miss p t k hpk2]
      by_cases hp : (p.1 == key) = true
      · rw [headerValues_cons_of_match _ _ _ hp, headerValues_cons_of_match _ _ _ hp, ih]
      · have hp2 : (p.1 == key) = false := by simpa using hp
        rw [headerValues_cons_of_miss _ _ _ hp2, headerValues_cons_of_miss _ _ _ hp2, ih]

theorem extractQueryText_of_no_user (req : ChatCompletionRequest)
    (h : ∀ m, m ∈ req.messages → m.role ≠ "user") : ExtractQueryText req = "" := by
  unfold ExtractQueryText
  have hfil : req.messages.filter (fun m => m.role == "user") = [] := by
    rw [List.filter_eq_nil_iff]
    intro m hm
    simpa using h m hm
  rw [hfil]
  rfl

theorem validateCacheEntry_eq_none_iff (entry : CacheEntry) :
    validateCacheEntry entry = none ↔
      entry.QueryHash ≠ "" ∧ entry.QueryText ≠ "" ∧
        entry.Embedding ≠ [] ∧ entry.LLMResponse ≠ "" := by
  unfold validateCacheEntry
  split_ifs with h1 h2 h3 h4 <;>
    simp_all [List.length_eq_zero]

theorem serveHTTP_valid (hashFn : String → String) (rid : String) (now : Int)
    (b : String) (req : ChatCompletionRequest)
    (ex : Except Unit (Option CacheEntry)) (em : Except Unit (List Rat))
    (se : Except Unit (Option CacheEntry × Rat)) (up : UpstreamResult)
    (hq : ExtractQueryText req ≠ "") :
    serveHTTP hashFn rid now ⟨some b, some req, ex, em, se, up⟩ =
      (match ex with
       | Except.ok (some entry) => hitOutcome rid entry false
       | Except.ok none =>
         afterExactStage rid now (hashFn (ExtractQueryText req))
           (ExtractQueryText req) em se up
       | Except.error _ =>
         afterExactStage rid now (hashFn (ExtractQueryText req))
           (ExtractQueryText req) em se up) := by
  unfold serveHTTP
  dsimp only
  rw [if_neg hq]

theorem afterExact_flags (rid : String) (now : Int) (qh qt : String)
    (em : Except Unit (List Rat)) (se : Except Unit (Option CacheEntry × Rat))
    (up : UpstreamResult) :
    ((afterExactStage rid now qh qt em se up).terminal = Terminal.gatewayError ↔
      (afterExactStage rid now qh qt em se up).upstreamCalled = true ∧
        (up = UpstreamResult.transportError ∨ up = UpstreamResult.bodyReadError)) ∧
    (afterExactStage rid now qh qt em se up).embedCalled = true ∧
    (em = Except.error () →
      (afterExactStage rid now qh qt em se up).upstreamCalled = true) ∧
    (se = Except.error () →
      (afterExactStage rid now qh qt em se up).upstreamCalled = true) := by
  cases em with
  | error u => cases up <;> simp [afterExactStage, forwardToUpstream]
  | ok vec =>
    cases se with
    | error u => cases up <;> simp [afterExactStage, forwardToUpstream]
    | ok pr =>
      rcases pr with ⟨o, s⟩
      cases o with
      | some e => simp [afterExactStage, hitOutcome]
      | none => cases up <;> simp [afterExactStage, forwardToUpstream]

theorem afterExact_stored (rid : String) (now : Int) (qh qt : String)
    (em : Except Unit (List Rat)) (se : Except Unit (Option CacheEntry × Rat))
    (up : UpstreamResult) :
    (∀ vec resp, em = Except.ok vec →
      (∀ e s, se ≠ Except.ok (some e, s)) → up = UpstreamResult.ok resp →
      (afterExactStage rid now qh qt em se up).stored =
        (if resp.StatusCode = 200 then
          some { ID := "", QueryHash := qh, QueryText := qt, Embedding := vec,
                 LLMResponse := resp.Body, CreatedAt := now }
         else none)) ∧
    (em = Except.error () →
      (afterExactStage rid now qh qt em se up).stored = none) ∧
    ((up = UpstreamResult.transportError ∨ up = UpstreamResult.bodyReadError) →
      (afterExactStage rid now qh qt em se up).stored = none) := by
  refine ⟨?_, ?_, ?_⟩
  · rintro vec resp rfl hse rfl
    cases se with
    | error u => simp [afterExactStage, forwardToUpstream]
    | ok pr =>
      rcases pr with ⟨o, s⟩
      cases o with
      | some e => exact absurd rfl (hse e s)
      | none => simp [afterExactStage, forwardToUpstream]
  · rintro rfl
    cases up <;> simp [afterExactStage, forwardToUpstream]
  · intro hup
    cases em with
    | error u =>
      rcases hup with rfl | rfl <;> simp [afterExactStage, forwardToUpstream]
    | ok vec =>
      cases se with
      | error u =>
        rcases hup with rfl | rfl <;> simp [afterExactStage, forwardToUpstream]
      | ok pr =>
        rcases pr with ⟨o, s⟩
        cases o with
        | some e => simp [afterExactStage, hitOutcome]
        | none =>
          rcases hup with rfl | rfl <;> simp [afterExactStage, forwardToUpstream]

/-! Section: claim theorems -/

/-- C1: for every SearchSimilar call on a non-empty embedding whose store
reply has a top-1 neighbour with a decodable document, the entry is
returned (some) exactly when the similarity strictly exceeds the threshold,
similarity exactly at the threshold is a miss, and the similarity is
reported to the caller in either case. -/
theorem searchSimilar_hit_iff_strictly_above (bestMatch : SearchResult)
    (tl : List SearchResult) (emb : List Rat) (threshold : Rat) (e : CacheEntry)
    (hemb : emb ≠ []) (hdoc : bestMatch.Document = SearchDoc.entry e) :
    SearchSimilar (Except.ok (bestMatch :: tl)) emb threshold =
      Except.ok ((if threshold < bestMatch.Score then some e else none),
        bestMatch.Score) ∧
    SearchSimilar (Except.ok (bestMatch :: tl)) emb bestMatch.Score =
      Except.ok (none, bestMatch.Score) := by
  have hlen : ¬ emb.length = 0 := by
    simpa [List.length_eq_zero] using hemb
  constructor
  · rcases le_or_lt bestMatch.Score threshold with hle | hlt
    · rw [if_neg (not_lt.mpr hle)]
      simp [SearchSimilar, hlen, hle]
    · rw [if_pos hlt]
      simp [SearchSimilar, hlen, not_le.mpr hlt, hdoc]
  · simp [SearchSimilar, hlen]

/-- Witness for C1 at a concrete top result with score 1: threshold one half
gives a hit with the decoded entry, threshold exactly 1 gives a miss. -/
theorem searchSimilar_hit_iff_strictly_above_witness :
    SearchSimilar (Except.ok [bestW]) [1] (1/2) = Except.ok (some entryGood, 1) ∧
    SearchSimilar (Except.ok [bestW]) [1] 1 = Except.ok (none, 1) := by
  constructor
  · have h1 := (searchSimilar_hit_iff_strictly_above bestW [] [1] (1/2) entryGood
      (by decide) rfl).1
    simp only [bestW] at h1
    norm_num at h1
    exact h1
  · have h2 := (searchSimilar_hit_iff_strictly_above bestW [] [1] 1 entryGood
      (by decide) rfl).2
    simpa [bestW] using h2

/-- C7 corrected: with a NON-EMPTY input vector, SearchSimilar only errors
on store transport or document-decoding failures; a reachable store whose
top document decodes never yields an error, and no neighbours yields
(none, 0, no error).  The unamended claim fails on the empty input vector,
which is rejected with an error before the store is consulted. -/
theorem searchSimilar_ok_on_good_reply (results : List SearchResult)
    (emb : List Rat) (threshold : Rat) (hemb : emb ≠ [])
    (hdec : ∀ b, results.head? = some b → b.Document ≠ SearchDoc.malformed) :
    (∃ ent sim, SearchSimilar (Except.ok results) emb threshold =
      Except.ok (ent, sim)) ∧
    SearchSimilar (Except.ok []) emb threshold = Except.ok (none, 0) := by
  have hlen : ¬ emb.length = 0 := by
    simpa [List.length_eq_zero] using hemb
  constructor
  · cases results with
    | nil => exact ⟨none, 0, by simp [SearchSimilar, hlen]⟩
    | cons best tl =>
      rcases le_or_lt best.Score threshold with hle | hlt
      · exact ⟨none, best.Score, by simp [SearchSimilar, hlen, hle]⟩
      · cases hdoc : best.Document with
        | missing =>
          exact ⟨none, best.Score,
            by simp [SearchSimilar, hlen, not_le.mpr hlt, hdoc]⟩
        | malformed => exact absurd hdoc (hdec best rfl)
        | entry e =>
          exact ⟨some e, best.Score,
            by simp [SearchSimilar, hlen, not_le.mpr hlt, hdoc]⟩
  · simp [SearchSimilar, hlen]

/-- Witness for C7 as amended, on a one-element reply and on the empty
reply. -/
theorem searchSimilar_ok_on_good_reply_witness :
    (∃ ent sim, SearchSimilar (Except.ok [bestW]) [1] 0 =
      Except.ok (ent, sim)) ∧
    SearchSimilar (Except.ok []) [1] 0 = Except.ok (none, 0) :=
  searchSimilar_ok_on_good_reply [bestW] [1] 0 (by decide)
    (by intro b hb
        simp at hb
        subst hb
        simp [bestW])

/-- Counterexample to C7 as stated: an empty input vector draws an error
from SearchSimilar even though the store is reachable and there is nothing
to decode. -/
theorem searchSimilar_empty_embedding_cex :
    SearchSimilar (Except.ok ([] : List SearchResult)) [] 0 =
      Except.error "embedding cannot be empty" := rfl

/-- C2: on a valid request with a user message, the pipeline reaches the
error terminal exactly when the upstream exchange itself failed after being
called; an exact-match error still runs the embedding step, and an
embedding or vector-search error (when those steps ran) still forwards the
request to the upstream. -/
theorem pipeline_error_only_from_upstream
    (hashFn : String → String) (rid : String) (now : Int) (inp : PipelineInput)
    (b : String) (req : ChatCompletionRequest)
    (hb : inp.bodyBytes = some b) (hp : inp.parsed = some req)
    (hq : ExtractQueryText req ≠ "") :
    ((serveHTTP hashFn rid now inp).terminal = Terminal.gatewayError ↔
      (serveHTTP hashFn rid now inp).upstreamCalled = true ∧
        (inp.upstream = UpstreamResult.transportError ∨
          inp.upstream = UpstreamResult.bodyReadError)) ∧
    (inp.exactMatch = Except.error () →
      (serveHTTP hashFn rid now inp).embedCalled = true) ∧
    ((serveHTTP hashFn rid now inp).embedCalled = true →
      inp.embedResult = Except.error () →
      (serveHTTP hashFn rid now inp).upstreamCalled = true) ∧
    ((serveHTTP hashFn rid now inp).searchCalled = true →
      inp.searchResult = Except.error () →
      (serveHTTP hashFn rid now inp).upstreamCalled = true) := by
  obtain ⟨bb, pp, ex, em, se, up⟩ := inp
  dsimp only at hb hp ⊢
  subst hb
  subst hp
  rw [serveHTTP_valid hashFn rid now b req ex em se up hq]
  cases ex with
  | ok o =>
    cases o with
    | some entry => refine ⟨?_, ?_, ?_, ?_⟩ <;> simp [hitOutcome]
    | none =>
      refine ⟨(afterExact_flags rid now _ _ em se up).1, ?_, ?_, ?_⟩
      · intro hcon
        exact Except.noConfusion hcon
      · intro _ hem
        exact (afterExact_flags rid now _ _ em se up).2.2.1 hem
      · intro _ hse
        exact (afterExact_flags rid now _ _ em se up).2.2.2 hse
  | error u =>
    refine ⟨(afterExact_flags rid now _ _ em se up).1, ?_, ?_, ?_⟩
    · intro _
      exact (afterExact_flags rid now _ _ em se up).2.1
    · intro _ hem
      exact (afterExact_flags rid now _ _ em se up).2.2.1 hem
    · intro _ hse
      exact (afterExact_flags rid now _ _ em se up).2.2.2 hse

/-- Witness for C2: exact lookup and vector search both fail while the
upstream answers, and the outcome is not the error terminal. -/
theorem pipeline_error_only_from_upstream_witness :
    (serveHTTP hashStub "r" 7 inpDegraded).terminal = Terminal.gatewayError ↔
      (serveHTTP hashStub "r" 7 inpDegraded).upstreamCalled = true ∧
        (inpDegraded.upstream = UpstreamResult.transportError ∨
          inpDegraded.upstream = UpstreamResult.bodyReadError) :=
  (pipeline_error_only_from_upstream hashStub "r" 7 inpDegraded "body" reqUser
    rfl rfl (by decide)).1

/-- C3 corrected: on a valid request that misses both cache tiers with an
embedding at hand, an entry is handed to StoreAsync exactly when the
upstream status is EXACTLY 200 (not any 2xx), carrying the fingerprint,
query text, embedding, response body and the current clock; and when the
embedding step failed, or the upstream exchange failed, nothing is ever
enqueued. -/
theorem storeAsync_enqueued_iff_status_200
    (hashFn : String → String) (rid : String) (now : Int) (inp : PipelineInput)
    (b : String) (req : ChatCompletionRequest)
    (hb : inp.bodyBytes = some b) (hp : inp.parsed = some req)
    (hq : ExtractQueryText req ≠ "")
    (hex : ∀ e, inp.exactMatch ≠ Except.ok (some e)) :
    (∀ vec resp, inp.embedResult = Except.ok vec →
      (∀ e s, inp.searchResult ≠ Except.ok (some e, s)) →
      inp.upstream = UpstreamResult.ok resp →
      (serveHTTP hashFn rid now inp).stored =
        (if resp.StatusCode = 200 then
          some { ID := "", QueryHash := hashFn (ExtractQueryText req),
                 QueryText := ExtractQueryText req, Embedding := vec,
                 LLMResponse := resp.Body, CreatedAt := now }
         else none)) ∧
    (inp.embedResult = Except.error () →
      (serveHTTP hashFn rid now inp).stored = none) ∧
    ((inp.upstream = UpstreamResult.transportError ∨
      inp.upstream = UpstreamResult.bodyReadError) →
      (serveHTTP hashFn rid now inp).stored = none) := by
  obtain ⟨bb, pp, ex, em, se, up⟩ := inp
  dsimp only at hb hp hex ⊢
  subst hb
  subst hp
  rw [serveHTTP_valid hashFn rid now b req ex em se up hq]
  cases ex with
  | ok o =>
    cases o with
    | some entry => exact absurd rfl (hex entry)
    | none => exact afterExact_stored rid now _ _ em se up
  | error u => exact afterExact_stored rid now _ _ em se up

/-- Witness for C3 as amended: a full miss answered with status 200
enqueues the expected entry. -/
theorem storeAsync_enqueued_iff_status_200_witness :
    (serveHTTP hashStub "r" 9 inpMiss200).stored =
      some { ID := "", QueryHash := hashStub "hi", QueryText := "hi",
             Embedding := [1], LLMResponse := "up-body", CreatedAt := 9 } := by
  have h := (storeAsync_enqueued_iff_status_200 hashStub "r" 9 inpMiss200 "body"
    reqUser rfl rfl (by decide)
    (by intro e hcon; simp [inpMiss200] at hcon)).1 [1] resp200 rfl
    (by intro e s hcon; simp [inpMiss200] at hcon) rfl
  rw [h]
  rfl

/-- Counterexample to C3 as stated: a full miss whose upstream status is
201 (a success in the 2xx sense) with an embedding generated enqueues
nothing. -/
theorem storeAsync_not_enqueued_on_201_cex :
    200 ≤ resp201.StatusCode ∧ resp201.StatusCode < 300 ∧
    inp201.embedResult = Except.ok [1] ∧
    inp201.upstream = UpstreamResult.ok resp201 ∧
    (serveHTTP hashStub "rid" 5 inp201).stored = none := by
  exact ⟨by decide, by decide, rfl, rfl, rfl⟩

/-- C4 corrected: the cache-status header is determined by the terminal
path: a served cache entry carries exactly X-Cache-Status HIT, an
upstream-served response carries exactly X-Cache-Status MISS (even when
the upstream supplied its own copies), and the error responses written by
writeError carry NO cache-status header at all, contradicting the claim
that every response carries one of the two. -/
theorem cache_status_header_by_terminal (hashFn : String → String)
    (rid : String) (now : Int) (inp : PipelineInput) :
    headerValues (serveHTTP hashFn rid now inp).response.headers
        "X-Cache-Status" =
      (match (serveHTTP hashFn rid now inp).terminal with
       | Terminal.hit => ["HIT"]
       | Terminal.missForwarded => ["MISS"]
       | Terminal.gatewayError => ([] : List String)) := by
  have hhit : ∀ e hb, headerValues (hitOutcome rid e hb).response.headers
      "X-Cache-Status" = ["HIT"] := by
    intro e hb
    show headerValues (headerSet _ "X-Request-ID" rid) "X-Cache-Status" = _
    rw [headerValues_headerSet_other _ "X-Request-ID" "X-Cache-Status" rid rfl,
      headerValues_headerSet_self]
  have hfwd : ∀ qh qt v up sc,
      headerValues (forwardToUpstream rid now qh qt v up sc).response.headers
          "X-Cache-Status" =
        (match (forwardToUpstream rid now qh qt v up sc).terminal with
         | Terminal.hit => ["HIT"]
         | Terminal.missForwarded => ["MISS"]
         | Terminal.gatewayError => ([] : List String)) := by
    intro qh qt v up sc
    cases up with
    | transportError => rfl
    | bodyReadError => rfl
    | ok resp =>
      show headerValues (headerSet _ "X-Request-ID" rid) "X-Cache-Status" = _
      rw [headerValues_headerSet_other _ "X-Request-ID" "X-Cache-Status" rid rfl,
        headerValues_headerSet_self]
      rfl
  obtain ⟨bb, pp, ex, em, se, up⟩ := inp
  cases bb with
  | none => rfl
  | some b =>
    cases pp with
    | none => rfl
    | some req =>
      by_cases hq : ExtractQueryText req = ""
      · unfold serveHTTP
        dsimp only
        rw [if_pos hq]
        rfl
      · rw [serveHTTP_valid hashFn rid now b req ex em se up hq]
        cases ex with
        | ok o =>
          cases o with
          | some entry => exact hhit entry false
          | none =>
            cases em with
            | error u => exact hfwd _ _ _ _ _
            | ok vec =>
              cases se with
              | error u => exact hfwd _ _ _ _ _
              | ok pr =>
                rcases pr with ⟨oe, s⟩
                cases oe with
                | some e2 => exact hhit e2 true
                | none => exact hfwd _ _ _ _ _
        | error u =>
          cases em with
          | error u2 => exact hfwd _ _ _ _ _
          | ok vec =>
            cases se with
            | error u2 => exact hfwd _ _ _ _ _
            | ok pr =>
              rcases pr with ⟨oe, s⟩
              cases oe with
              | some e2 => exact hhit e2 true
              | none => exact hfwd _ _ _ _ _

/-- Counterexample to C4 as stated: a pipeline response (the 400 for a
missing buffered body) with neither X-Cache-Status HIT nor MISS. -/
theorem cache_status_header_missing_cex :
    (serveHTTP hashStub "r" 0 inpNoBody).response.status = 400 ∧
    headerValues (serveHTTP hashStub "r" 0 inpNoBody).response.headers
      "X-Cache-Status" = [] :=
  ⟨rfl, rfl⟩

/-- C9: an empty request body (which json.Unmarshal rejects, so the parse
oracle is none) is answered 400 with the OpenAI-shaped error body, and a
parsed body without any user-role message is answered 400 likewise; in
both cases the cache is never consulted and the upstream is never
called. -/
theorem bad_request_rejected (hashFn : String → String) (rid : String)
    (now : Int) (inp : PipelineInput) :
    (inp.bodyBytes = some "" → inp.parsed = none →
      (serveHTTP hashFn rid now inp).response.status = 400 ∧
      (serveHTTP hashFn rid now inp).response.body =
        RespBody.errorJSON "Invalid request format" "invalid_request_error" ∧
      (serveHTTP hashFn rid now inp).cacheChecked = false ∧
      (serveHTTP hashFn rid now inp).upstreamCalled = false) ∧
    (∀ b req, inp.bodyBytes = some b → inp.parsed = some req →
      (∀ m, m ∈ req.messages → m.role ≠ "user") →
      (serveHTTP hashFn rid now inp).response.status = 400 ∧
      (serveHTTP hashFn rid now inp).response.body =
        RespBody.errorJSON "No user messages found in request"
          "invalid_request_error" ∧
      (serveHTTP hashFn rid now inp).cacheChecked = false ∧
      (serveHTTP hashFn rid now inp).upstreamCalled = false) := by
  obtain ⟨bb, pp, ex, em, se, up⟩ := inp
  constructor
  · intro hb hp
    dsimp only at hb hp
    subst hb
    subst hp
    exact ⟨rfl, rfl, rfl, rfl⟩
  · intro b req hb hp hnou
    dsimp only at hb hp
    subst hb
    subst hp
    have hq := extractQueryText_of_no_user req hnou
    unfold serveHTTP
    dsimp only
    rw [if_pos hq]
    exact ⟨rfl, rfl, rfl, rfl⟩

/-- Witness for C9 at the concrete empty-body input. -/
theorem bad_request_rejected_witness :
    (serveHTTP hashStub "r" 0 inpEmptyBody).response.status = 400 ∧
    (serveHTTP hashStub "r" 0 inpEmptyBody).response.body =
      RespBody.errorJSON "Invalid request format" "invalid_request_error" ∧
    (serveHTTP hashStub "r" 0 inpEmptyBody).cacheChecked = false ∧
    (serveHTTP hashStub "r" 0 inpEmptyBody).upstreamCalled = false :=
  (bad_request_rejected hashStub "r" 0 inpEmptyBody).1 rfl rfl

/-- C8 corrected for the variant at part_003 lines 231 to 243: the outbound
path is the request path when the base path is trivial or already a prefix
of the request path, and the concatenation of the two otherwise, so this
variant never doubles the base.  The other variant of the file is refuted
separately. -/
theorem buildUpstreamURL_respects_base (basePath path : String) :
    (hasPrefixStr path basePath = true →
      buildUpstreamURL basePath path = path) ∧
    (basePath ≠ "" → basePath ≠ "/" → hasPrefixStr path basePath = false →
      buildUpstreamURL basePath path = basePath ++ path) ∧
    (buildUpstreamURL "" path = path ∧ buildUpstreamURL "/" path = path) := by
  refine ⟨?_, ?_, ?_, ?_⟩
  · intro h
    unfold buildUpstreamURL
    by_cases h1 : basePath = "" ∨ basePath = "/"
    · rw [if_pos h1]
    · rw [if_neg h1, if_pos h]
  · intro h1 h2 h3
    unfold buildUpstreamURL
    rw [if_neg (not_or.mpr ⟨h1, h2⟩), if_neg (by simp [h3])]
  · unfold buildUpstreamURL
    rw [if_pos (Or.inl rfl)]
  · unfold buildUpstreamURL
    rw [if_pos (Or.inr rfl)]

/-- Witness for C8 as amended: with base path v1, a request path already
carrying the base passes through unchanged and a bare request path gets the
base prepended once. -/
theorem buildUpstreamURL_respects_base_witness :
    buildUpstreamURL "/v1" "/v1/chat/completions" = "/v1/chat/completions" ∧
    buildUpstreamURL "/v1" "/chat/completions" = "/v1/chat/completions" := by
  constructor
  · exact (buildUpstreamURL_respects_base "/v1" "/v1/chat/completions").1 rfl
  · have h := (buildUpstreamURL_respects_base "/v1" "/chat/completions").2.1
      (by decide) (by decide) (by decide)
    rw [h]
    decide

/-- Counterexample to C8 as stated over the whole source: the second
variant of buildUpstreamURL (part_003 lines 368 to 380) prepends the base
even when the request path already carries it, doubling the base. -/
theorem buildUpstreamURL_second_variant_doubles_cex :
    hasPrefixStr "/v1/chat/completions" "/v1" = true ∧
    buildUpstreamURLSecondVariant "/v1" "/v1/chat/completions" =
      "/v1/v1/chat/completions" ∧
    buildUpstreamURLSecondVariant "/v1" "/v1/chat/completions" ≠
      "/v1/chat/completions" := by
  exact ⟨rfl, by decide, by decide⟩

/-- C10: a configured similarity threshold at or below 0 is silently
replaced by 0.95 in handler.New; configuration validation nevertheless
accepts a threshold of exactly 0; and no configuration can make the
effective threshold 0. -/
theorem similarity_threshold_never_zero :
    (∀ c : HandlerConfig, c.SimilarityThreshold ≤ 0 →
      handlerNewThreshold (some c) = 0.95) ∧
    Config.Validate cfgZeroThreshold = none ∧
    (∀ o : Option HandlerConfig, handlerNewThreshold o ≠ 0) := by
  refine ⟨?_, ?_, ?_⟩
  · intro c hc
    show (if 0 < c.SimilarityThreshold then c.SimilarityThreshold
      else (0.95 : Rat)) = 0.95
    rw [if_neg (not_lt.mpr hc)]
  · decide
  · intro o
    cases o with
    | none => norm_num [handlerNewThreshold]
    | some c =>
      show (if 0 < c.SimilarityThreshold then c.SimilarityThreshold
        else (0.95 : Rat)) ≠ 0
      by_cases hc : 0 < c.SimilarityThreshold
      · rw [if_pos hc]
        exact ne_of_gt hc
      · rw [if_neg hc]
        norm_num

/-- Witness for C10 at the configured threshold 0. -/
theorem similarity_threshold_never_zero_witness :
    handlerNewThreshold (some { SimilarityThreshold := 0 }) = 0.95 :=
  similarity_threshold_never_zero.1 { SimilarityThreshold := 0 } le_rfl

/-- C5 corrected: the round trip holds for entries whose ID is absent or
already equals the derived key; then store writes at the key that
CheckExactMatch rederives from the fingerprint, which reads the persisted
entry back with the stored llm_response.  An entry persisted under a
pre-set divergent ID is refuted separately. -/
theorem store_then_checkExactMatch_roundtrip (st : RedisState) (now : Int)
    (entry : CacheEntry) (st2 : RedisState) (e2 : CacheEntry)
    (hid : entry.ID = "" ∨ entry.ID = CacheKeyFromHash entry.QueryHash)
    (hstore : store st now entry = some (st2, e2)) :
    CheckExactMatch st2 entry.QueryHash = some e2 ∧
      e2.LLMResponse = entry.LLMResponse := by
  cases hval : validateCacheEntry entry with
  | some m => simp [store, hval] at hstore
  | none =>
    by_cases hID0 : entry.ID = ""
    · by_cases hCA : entry.CreatedAt = 0
      · simp [store, hval, hID0, hCA] at hstore
        obtain ⟨hst2, he2⟩ := hstore
        subst hst2
        subst he2
        refine ⟨?_, rfl⟩
        simp [CheckExactMatch, redisExists, redisJSONGet, redisJSONSet,
          List.lookup]
      · simp [store, hval, hID0, hCA] at hstore
        obtain ⟨hst2, he2⟩ := hstore
        subst hst2
        subst he2
        refine ⟨?_, rfl⟩
        simp [CheckExactMatch, redisExists, redisJSONGet, redisJSONSet,
          List.lookup]
    · have hIDk : entry.ID = CacheKeyFromHash entry.QueryHash :=
        hid.resolve_left hID0
      by_cases hCA : entry.CreatedAt = 0
      · simp [store, hval, hID0, hCA] at hstore
        obtain ⟨hst2, he2⟩ := hstore
        subst hst2
        subst he2
        refine ⟨?_, rfl⟩
        simp [CheckExactMatch, redisExists, redisJSONGet, redisJSONSet,
          List.lookup, ← hIDk]
      · simp [store, hval, hID0, hCA] at hstore
        obtain ⟨hst2, he2⟩ := hstore
        subst hst2
        subst he2
        refine ⟨?_, rfl⟩
        simp [CheckExactMatch, redisExists, redisJSONGet, redisJSONSet,
          List.lookup, ← hIDk]

/-- Witness for C5 as amended: storing entryGood on an empty store makes
the subsequent exact-match lookup for its fingerprint return the persisted
entry with the original llm_response. -/
theorem store_then_checkExactMatch_roundtrip_witness :
    CheckExactMatch [("cache:aa", entryGoodStored)] entryGood.QueryHash =
      some entryGoodStored ∧
    entryGoodStored.LLMResponse = entryGood.LLMResponse :=
  store_then_checkExactMatch_roundtrip [] 10 entryGood
    [("cache:aa", entryGoodStored)] entryGoodStored (Or.inl rfl) rfl

/-- Counterexample to C5 as stated: an entry that passes validation but
carries a pre-set ID different from the derived key is persisted under
that ID, and the subsequent exact-match lookup for its fingerprint misses. -/
theorem store_then_checkExactMatch_roundtrip_cex :
    validateCacheEntry entryMismatchedID = none ∧
    store [] 10 entryMismatchedID =
      some ([("cache:other", entryMismatchedID)], entryMismatchedID) ∧
    CheckExactMatch [("cache:other", entryMismatchedID)]
      entryMismatchedID.QueryHash = none :=
  ⟨rfl, rfl, rfl⟩

/-- C6 corrected: the section 3 invariants hold at insertion for every
entry submitted with ID absent and CreatedAt unset (given a positive
clock); an entry submitted with a pre-set ID or CreatedAt is persisted
without those fields being validated, which the counterexample refutes. -/
theorem stored_entry_satisfies_spec_invariants (st : RedisState) (now : Int)
    (entry : CacheEntry) (st2 : RedisState) (e2 : CacheEntry)
    (hnow : 0 < now) (hID : entry.ID = "") (hCA : entry.CreatedAt = 0)
    (hstore : store st now entry = some (st2, e2)) :
    specEntryInvariant e2 := by
  cases hval : validateCacheEntry entry with
  | some m => simp [store, hval] at hstore
  | none =>
    simp [store, hval, hID, hCA] at hstore
    obtain ⟨hst2, he2⟩ := hstore
    subst he2
    obtain ⟨f1, f2, f3, f4⟩ := (validateCacheEntry_eq_none_iff entry).mp hval
    exact ⟨f1, f2, f3, f4, rfl, hnow⟩

/-- Witness for C6 as amended: entryGood stored at clock 10 satisfies
every section 3 invariant. -/
theorem stored_entry_satisfies_spec_invariants_witness :
    specEntryInvariant entryGoodStored :=
  stored_entry_satisfies_spec_invariants [] 10 entryGood
    [("cache:aa", entryGoodStored)] entryGoodStored (by norm_num) rfl rfl rfl

/-- Counterexample to C6 as stated: an entry with a pre-set negative
timestamp passes store, and the persisted entry violates the created_at
invariant. -/
theorem stored_entry_satisfies_spec_invariants_cex :
    store [] 10 entryNegativeTime =
      some ([("cache:aa", entryNegativeStored)], entryNegativeStored) ∧
    ¬ specEntryInvariant entryNegativeStored :=
  ⟨rfl, by decide⟩

end SemanticCache
